import Mathlib

/-!
Shallow embedding of the apology-generator orchestration logic of
src/app.py: the Gemini retry loop together with its lru_cache memoization
and the process-wide quota flag, the GPT-2 fallback, the history log and
the feedback recorder.  The outcome of each live backend invocation is
abstracted as an oracle argument; all state is passed explicitly.  The
Python string helpers strip, lower and replace are embedded as the
structurally recursive pyStrip, pyLower and pyRemoveAll so that every
definition evaluates by kernel reduction.
-/

set_option autoImplicit false

namespace ApologyGenie


/-- Embeds CACHE_SIZE (src/app.py line 12). -/
def CACHE_SIZE : Nat := 100

/-- Embeds MAX_RETRIES (src/app.py line 13). -/
def MAX_RETRIES : Nat := 2

/-- Embeds the history dictionaries appended at src/app.py lines 126-134:
id and timestamp are the two datetime-derived strings, situation and tone
are the raw user inputs, apology and model the generation outcome, and
feedback the optional rating (None until rated). -/
structure HistoryEntry where
  id : String
  timestamp : String
  situation : String
  tone : String
  apology : String
  model : String
  feedback : Option Bool
  deriving DecidableEq, Repr

/-- Embeds handle_feedback (src/app.py lines 71-76): walk the history in
order, set the feedback field of the first entry whose id matches, stop
at the first match; a missing id leaves the list untouched. -/
def handle_feedback : List HistoryEntry → String → Bool → List HistoryEntry
  | [], _, _ => []
  | e :: rest, entry_id, is_positive =>
    if e.id = entry_id then { e with feedback := some is_positive } :: rest
    else e :: handle_feedback rest entry_id is_positive

/-- Pointwise relation between a history entry and its updated form:
every field except feedback is unchanged. -/
def framePreserved (e f : HistoryEntry) : Prop :=
  f.id = e.id ∧ f.timestamp = e.timestamp ∧ f.situation = e.situation ∧
    f.tone = e.tone ∧ f.apology = e.apology ∧ f.model = e.model

def sampleEntry : HistoryEntry :=
  ⟨"20250101000000000000", "2025-01-01 00:00", "I forgot", "formal", "Sorry.", "Gemini", none⟩

/-- Embeds the sampling temperature chosen at src/app.py line 43:
0.7 when the tone is funny, 0.3 otherwise. -/
def temperature (tone : String) : ℚ :=
  if tone = "funny" then 0.7 else 0.3

/-- Outcome of one live Gemini API invocation as seen by the try/except
in generate_with_gemini (src/app.py lines 39-54): the call returns a
response text, raises genai.APIError with a message, or raises some
other exception with a message (which the inner except does not catch). -/
inductive AttemptOutcome where
  | success (text : String)
  | apiError (msg : String)
  | otherError (msg : String)
  deriving DecidableEq, Repr

/-- Result of one call of generate_with_gemini: a normal return of the
text, or a raised exception carrying its message string. -/
inductive GeminiReturn where
  | ret (text : String)
  | raise (msg : String)
  deriving DecidableEq, Repr

/-- Helper for the Python str.strip: drop leading whitespace. -/
def dropLeadingWs : List Char → List Char
  | [] => []
  | c :: rest => if c.isWhitespace then dropLeadingWs rest else c :: rest

/-- Embeds the Python str.strip used at src/app.py lines 66, 102, 112
and 121: removes leading and trailing whitespace. -/
def pyStrip (s : String) : String :=
  ⟨(dropLeadingWs (dropLeadingWs s.data).reverse).reverse⟩

/-- Embeds the Python str.lower used at src/app.py lines 49, 112, 115
and 121 (ASCII case folding, which covers the strings of this app). -/
def pyLower (s : String) : String := ⟨s.data.map Char.toLower⟩

/-- Decides whether pat occurs as a contiguous run inside the second
list, like the Python membership test on strings. -/
def hasSubstr (pat : List Char) : List Char → Bool
  | [] => pat.isEmpty
  | c :: rest => pat.isPrefixOf (c :: rest) || hasSubstr pat rest

/-- Embeds the check used at src/app.py lines 49 and 115: whether the
word quota occurs in the lowercased exception message. -/
def isQuotaError (msg : String) : Bool :=
  hasSubstr "quota".data (pyLower msg).data

/-- Embeds the retry loop of generate_with_gemini (src/app.py lines
38-55).  The behavior argument gives the outcome of each live API
invocation of this call, flag is st.session_state.gemini_over_limit,
attempt is the loop variable and fuel the iterations still allowed.
Returns the call result, the new flag value, and the number of live
invocations made.  A quota APIError sets the flag and re-raises at once;
another APIError retries unless this was the last allowed attempt; any
other exception propagates uncaught. -/
def geminiLoop (behavior : Nat → AttemptOutcome) (flag : Bool) :
    Nat → Nat → GeminiReturn × Bool × Nat
  | _, 0 => (.ret "", flag, 0)
  | attempt, fuel + 1 =>
    match behavior attempt with
    | .success text => (.ret text, flag, 1)
    | .apiError msg =>
      if isQuotaError msg then (.raise msg, true, 1)
      else if attempt = MAX_RETRIES - 1 then (.raise msg, flag, 1)
      else
        ((geminiLoop behavior flag (attempt + 1) fuel).1,
         (geminiLoop behavior flag (attempt + 1) fuel).2.1,
         (geminiLoop behavior flag (attempt + 1) fuel).2.2 + 1)
    | .otherError msg => (.raise msg, flag, 1)

/-- Embeds the body of generate_with_gemini (src/app.py lines 33-55):
the loop runs over range MAX_RETRIES starting at attempt 0. -/
def generate_with_gemini (behavior : Nat → AttemptOutcome) (flag : Bool) :
    GeminiReturn × Bool × Nat :=
  geminiLoop behavior flag 0 MAX_RETRIES

/-- Keys of the lru_cache on generate_with_gemini: the normalized
situation and tone strings passed in from main. -/
abbrev CacheKey := String × String

/-- The lru_cache table on generate_with_gemini, most recent entry
first: key and memoized return text. -/
abbrev Cache := List (CacheKey × String)

def cacheLookup : Cache → CacheKey → Option String
  | [], _ => none
  | (k, v) :: rest, key => if k = key then some v else cacheLookup rest key

def cacheErase : Cache → CacheKey → Cache
  | [], _ => []
  | (k, v) :: rest, key =>
    if k = key then cacheErase rest key else (k, v) :: cacheErase rest key

/-- Inserting a memoized return: the new pair becomes most recent and at
most CACHE_SIZE entries are kept. -/
def cacheInsert (c : Cache) (key : CacheKey) (v : String) : Cache :=
  ((key, v) :: cacheErase c key).take CACHE_SIZE

/-- A hit refreshes recency of the entry. -/
def cacheTouch (c : Cache) (key : CacheKey) : Cache :=
  match cacheLookup c key with
  | some v => (key, v) :: cacheErase c key
  | none => c

/-- Embeds the lru_cache wrapper on generate_with_gemini (src/app.py
line 32): a hit returns the memoized text with no live invocation; a
miss runs the call body and memoizes a normal return.  Raised
exceptions are not memoized.  Returns the call result, the new cache,
the new quota flag and the number of live invocations. -/
def cachedGemini (behavior : Nat → AttemptOutcome) (c : Cache) (flag : Bool)
    (key : CacheKey) : GeminiReturn × Cache × Bool × Nat :=
  match cacheLookup c key with
  | some text => (.ret text, cacheTouch c key, flag, 0)
  | none =>
    match generate_with_gemini behavior flag with
    | (.ret text, f, n) => (.ret text, cacheInsert c key text, f, n)
    | (.raise msg, f, n) => (.raise msg, c, f, n)

/-- Outcome of the one live GPT-2 pipeline invocation inside
generate_with_gpt2: the generated text of the first returned sequence,
or an exception with a message. -/
inductive Gpt2Outcome where
  | success (generated_text : String)
  | failure (msg : String)
  deriving DecidableEq, Repr

/-- The fixed string returned by generate_with_gpt2 when the pipeline
raises (src/app.py line 69). -/
def FAILURE_TEXT : String := "Apology generation failed. Please try again."

/-- Embeds the prompt built at src/app.py line 60. -/
def gpt2Prompt (situation tone : String) : String :=
  s!"Write a {tone} apology for {situation}:"

/-- Fueled scan for pyRemoveAll: the fuel starts at the list length and
each step consumes one unit while the list shrinks by at least one
character, so the fuel never runs out first. -/
def removeAllAux (pat : List Char) : Nat → List Char → List Char
  | 0, l => l
  | _ + 1, [] => []
  | fuel + 1, c :: rest =>
    if pat.isPrefixOf (c :: rest) then removeAllAux pat fuel ((c :: rest).drop pat.length)
    else c :: removeAllAux pat fuel rest

/-- Embeds the Python replace(prompt, "") at src/app.py line 66: every
occurrence of the non-empty pattern is removed, scanning left to right
without overlap. -/
def pyRemoveAll (s pat : String) : String :=
  if pat.data.isEmpty then s else ⟨removeAllAux pat.data s.data.length s.data⟩

/-- Embeds generate_with_gpt2 (src/app.py lines 57-69): on success the
prompt is removed from the generated text and the result stripped; any
exception is caught, logged and the fixed failure message returned. -/
def generate_with_gpt2 (behavior : Gpt2Outcome) (situation tone : String) : String :=
  match behavior with
  | .success generated_text =>
    pyStrip (pyRemoveAll generated_text (gpt2Prompt situation tone))
  | .failure _ => FAILURE_TEXT

/-- The mutable session state read and written by the generate handler:
the quota flag and history (src/app.py lines 85-88), whether the Gemini
model was configured (models gemini is not None, line 25 versus line
19), and the lru_cache table.  The GPT-2 pipeline is always present
(line 20 builds it unconditionally), so it needs no field. -/
structure AppState where
  gemini_over_limit : Bool
  geminiConfigured : Bool
  cache : Cache
  history : List HistoryEntry
  deriving DecidableEq, Repr

/-- Everything the generate handler produced: the new session state,
whether the success branch ran (apology truthy at line 124), the final
apology and model_used strings, and how many live invocations each
backend received. -/
structure GenOutput where
  state : AppState
  ok : Bool
  apology : String
  model_used : String
  geminiCalls : Nat
  gpt2Calls : Nat
  deriving DecidableEq, Repr

/-- The two backend oracles for one request: the outcome of each live
Gemini invocation, and the outcome of the single GPT-2 invocation. -/
structure Behaviors where
  gemini : Nat → AttemptOutcome
  gpt2 : Gpt2Outcome

/-- Partial result of the guarded Gemini attempt in main: the apology
and model_used strings so far, the new cache and flag, and the live
invocation count. -/
structure GeminiPhase where
  apology : String
  model : String
  cache : Cache
  flag : Bool
  calls : Nat
  deriving DecidableEq, Repr

/-- Embeds src/app.py lines 106-117: apology and model_used start
empty; Gemini is attempted only when the quota flag is unset and the
model is configured; the surrounding try/except sets the quota flag
when a propagated exception message mentions quota and otherwise
swallows the exception, leaving apology empty. -/
def geminiPhase (s : AppState) (behavior : Nat → AttemptOutcome) (key : CacheKey) :
    GeminiPhase :=
  if !s.gemini_over_limit && s.geminiConfigured then
    match cachedGemini behavior s.cache s.gemini_over_limit key with
    | (.ret text, c, f, n) => ⟨text, "Gemini", c, f, n⟩
    | (.raise msg, c, f, n) => ⟨"", "", c, if isQuotaError msg then true else f, n⟩
  else ⟨"", "", s.cache, s.gemini_over_limit, 0⟩

/-- Embeds the generate-button handler of main (src/app.py lines
101-162): blank-input guard, normalization of situation and tone, the
guarded Gemini attempt, the GPT-2 fallback when apology is still empty,
and the history append exactly when the final apology is non-empty.
The entry_id and ts arguments stand for the two datetime.now strings of
lines 125 and 128; the appended entry keeps the raw situation and tone
(lines 129-130). -/
def generateStep (s : AppState) (beh : Behaviors)
    (situation tone entry_id ts : String) : GenOutput :=
  if pyStrip situation = "" then
    ⟨s, false, "", "", 0, 0⟩
  else
    let p := geminiPhase s beh.gemini (pyLower (pyStrip situation), pyLower tone)
    let apology :=
      if p.apology = "" then
        generate_with_gpt2 beh.gpt2 (pyLower (pyStrip situation)) (pyLower tone)
      else p.apology
    let model_used := if p.apology = "" then "GPT-2" else p.model
    let g2 : Nat := if p.apology = "" then 1 else 0
    if apology = "" then
      ⟨⟨p.flag, s.geminiConfigured, p.cache, s.history⟩,
        false, apology, model_used, p.calls, g2⟩
    else
      ⟨⟨p.flag, s.geminiConfigured, p.cache,
          s.history ++ [⟨entry_id, ts, situation, tone, apology, model_used, none⟩]⟩,
        true, apology, model_used, p.calls, g2⟩

def c1State : AppState := ⟨false, true, [], []⟩

def c1Beh : Behaviors :=
  ⟨fun _ => .apiError "503 backend unavailable", .failure "model load error"⟩

def c1Out : GenOutput := generateStep c1State c1Beh "I broke your phone" "sincere" "e9" "t9"

def w1State : AppState := ⟨true, true, [], []⟩

def w1Beh : Behaviors := ⟨fun _ => .success "unused", .failure "oom"⟩

def c2State : AppState := ⟨true, true, [], []⟩

def c2Beh : Behaviors := ⟨fun _ => .success "never used", .success "Deeply sorry."⟩

def c2Out : GenOutput := generateStep c2State c2Beh "I forgot" "friendly" "e5" "t5"

def w2State : AppState := ⟨false, true, [], []⟩

def w2Beh : Behaviors := ⟨fun _ => .success "My sincere apologies.", .success "fallback"⟩

def c3State : AppState := ⟨false, true, [], []⟩

def c3B1 : Behaviors := ⟨fun _ => .success "So sorry A.", .success "unused1"⟩

def c3B2 : Behaviors := ⟨fun _ => .apiError "429 Quota exceeded for model", .success "Sorry B."⟩

def c3B3 : Behaviors := ⟨fun _ => .success "never reached", .success "Sorry C."⟩

def c3Out1 : GenOutput := generateStep c3State c3B1 "I missed it" "formal" "e1" "t1"

def c3Out2 : GenOutput := generateStep c3Out1.state c3B2 "Other thing" "funny" "e2" "t2"

def c3Out3 : GenOutput := generateStep c3Out2.state c3B3 "I missed it" "formal" "e3" "t3"

def w3State : AppState := ⟨false, true, [], []⟩

def w3B1 : Behaviors := ⟨fun _ => .success "Please forgive me.", .success "x"⟩

def w3B2 : Behaviors := ⟨fun _ => .otherError "network down", .failure "y"⟩

def w4State : AppState := ⟨true, true, [], []⟩

def w4Beh : Behaviors := ⟨fun _ => .success "never", .success "Really sorry."⟩

def w10State : AppState := ⟨false, true, [], []⟩

def w10Beh : Behaviors := ⟨fun _ => .success "", .success "We are truly sorry."⟩

theorem framePreserved_refl (e : HistoryEntry) : framePreserved e e :=
  ⟨rfl, rfl, rfl, rfl, rfl, rfl⟩

theorem forall₂_framePreserved_refl (l : List HistoryEntry) :
    List.Forall₂ framePreserved l l := by
  induction l with
  | nil => exact List.Forall₂.nil
  | cons e rest ih => exact List.Forall₂.cons (framePreserved_refl e) ih

theorem geminiLoop_calls_le (behavior : Nat → AttemptOutcome) (flag : Bool) :
    ∀ fuel attempt, (geminiLoop behavior flag attempt fuel).2.2 ≤ fuel := by
  intro fuel
  induction fuel with
  | zero => intro attempt; simp [geminiLoop]
  | succ fu ih =>
    intro attempt
    simp only [geminiLoop]
    cases hb : behavior attempt with
    | success t => simp
    | apiError m =>
      by_cases hq : isQuotaError m
      · simp [hq]
      · by_cases ha : attempt = MAX_RETRIES - 1
        · simp [hq, ha]
        · simp only [hq, ha, Bool.false_eq_true, if_false, ite_false]
          exact Nat.succ_le_succ (ih (attempt + 1))
    | otherError m => simp

theorem geminiLoop_ret_flag (behavior : Nat → AttemptOutcome) (flag : Bool) :
    ∀ fuel attempt text, (geminiLoop behavior flag attempt fuel).1 = .ret text →
      (geminiLoop behavior flag attempt fuel).2.1 = flag := by
  intro fuel
  induction fuel with
  | zero => intro attempt text _; rfl
  | succ fu ih =>
    intro attempt text h
    simp only [geminiLoop] at h ⊢
    cases hb : behavior attempt with
    | success t => simp [hb]
    | apiError m =>
      rw [hb] at h
      by_cases hq : isQuotaError m
      · simp [hq] at h
      · by_cases ha : attempt = MAX_RETRIES - 1
        · simp [hq, ha]
        · simp only [hq, ha, Bool.false_eq_true, if_false, ite_false] at h ⊢
          exact ih (attempt + 1) text h
    | otherError m => rw [hb] at h

theorem generate_with_gemini_ret_flag (behavior : Nat → AttemptOutcome) (flag : Bool)
    (text : String) (h : (generate_with_gemini behavior flag).1 = .ret text) :
    (generate_with_gemini behavior flag).2.1 = flag :=
  geminiLoop_ret_flag behavior flag MAX_RETRIES 0 text h

theorem generate_with_gemini_calls_le (behavior : Nat → AttemptOutcome) (flag : Bool) :
    (generate_with_gemini behavior flag).2.2 ≤ MAX_RETRIES :=
  geminiLoop_calls_le behavior flag MAX_RETRIES 0

theorem generate_with_gemini_success0 (behavior : Nat → AttemptOutcome) (flag : Bool)
    (t : String) (h : behavior 0 = .success t) :
    generate_with_gemini behavior flag = (.ret t, flag, 1) := by
  simp [generate_with_gemini, MAX_RETRIES, geminiLoop, h]

theorem generate_with_gemini_quota0 (behavior : Nat → AttemptOutcome) (flag : Bool)
    (m : String) (h : behavior 0 = .apiError m) (hq : isQuotaError m = true) :
    generate_with_gemini behavior flag = (.raise m, true, 1) := by
  simp [generate_with_gemini, MAX_RETRIES, geminiLoop, h, hq]

theorem cacheLookup_cacheInsert (c : Cache) (key : CacheKey) (v : String) :
    cacheLookup (cacheInsert c key v) key = some v := by
  have h100 : CACHE_SIZE = 99 + 1 := rfl
  simp [cacheInsert, h100, List.take_succ_cons, cacheLookup]

theorem cachedGemini_ret (behavior : Nat → AttemptOutcome) (c : Cache) (flag : Bool)
    (key : CacheKey) (text : String) (c2 : Cache) (f : Bool) (n : Nat)
    (h : cachedGemini behavior c flag key = (.ret text, c2, f, n)) :
    f = flag ∧ cacheLookup c2 key = some text := by
  unfold cachedGemini at h
  cases hl : cacheLookup c key with
  | some v =>
    rw [hl] at h
    simp only [Prod.mk.injEq, GeminiReturn.ret.injEq] at h
    obtain ⟨h1, h2, h3, h4⟩ := h
    subst h1 h2 h3
    simp [cacheTouch, hl, cacheLookup]
  | none =>
    rw [hl] at h
    rcases hg : generate_with_gemini behavior flag with ⟨r, f', n'⟩
    rw [hg] at h
    cases r with
    | ret t =>
      simp only [Prod.mk.injEq, GeminiReturn.ret.injEq] at h
      obtain ⟨h1, h2, h3, h4⟩ := h
      constructor
      · have hf := generate_with_gemini_ret_flag behavior flag t (by rw [hg])
        rw [hg] at hf
        rw [← h3, ← hf]
      · rw [← h2, h1]
        exact cacheLookup_cacheInsert c key text
    | raise m => simp at h

theorem cachedGemini_miss_quota (behavior : Nat → AttemptOutcome) (c : Cache) (flag : Bool)
    (key : CacheKey) (m : String) (hmiss : cacheLookup c key = none)
    (hm : behavior 0 = .apiError m) (hq : isQuotaError m = true) :
    cachedGemini behavior c flag key = (.raise m, c, true, 1) := by
  unfold cachedGemini
  rw [hmiss, generate_with_gemini_quota0 behavior flag m hm hq]

theorem cachedGemini_miss_success (behavior : Nat → AttemptOutcome) (c : Cache) (flag : Bool)
    (key : CacheKey) (t : String) (hmiss : cacheLookup c key = none)
    (hm : behavior 0 = .success t) :
    cachedGemini behavior c flag key = (.ret t, cacheInsert c key t, flag, 1) := by
  unfold cachedGemini
  rw [hmiss, generate_with_gemini_success0 behavior flag t hm]

theorem cachedGemini_calls_le (behavior : Nat → AttemptOutcome) (c : Cache) (flag : Bool)
    (key : CacheKey) : (cachedGemini behavior c flag key).2.2.2 ≤ MAX_RETRIES := by
  unfold cachedGemini
  cases hl : cacheLookup c key with
  | some v => simp
  | none =>
    rcases hg : generate_with_gemini behavior flag with ⟨r, f, n⟩
    have hle := generate_with_gemini_calls_le behavior flag
    rw [hg] at hle
    cases r <;> simpa using hle

theorem geminiPhase_skip (s : AppState) (behavior : Nat → AttemptOutcome) (key : CacheKey)
    (h : s.gemini_over_limit = true ∨ s.geminiConfigured = false) :
    geminiPhase s behavior key = ⟨"", "", s.cache, s.gemini_over_limit, 0⟩ := by
  rcases h with h | h <;> simp [geminiPhase, h]

theorem geminiPhase_quota0 (s : AppState) (behavior : Nat → AttemptOutcome) (key : CacheKey)
    (m : String) (hflag : s.gemini_over_limit = false) (hconf : s.geminiConfigured = true)
    (hmiss : cacheLookup s.cache key = none) (hm : behavior 0 = .apiError m)
    (hq : isQuotaError m = true) :
    geminiPhase s behavior key = ⟨"", "", s.cache, true, 1⟩ := by
  simp only [geminiPhase, hflag, hconf]
  rw [cachedGemini_miss_quota behavior s.cache false key m hmiss hm hq]
  simp [hq]

theorem geminiPhase_success0 (s : AppState) (behavior : Nat → AttemptOutcome) (key : CacheKey)
    (t : String) (hflag : s.gemini_over_limit = false) (hconf : s.geminiConfigured = true)
    (hmiss : cacheLookup s.cache key = none) (hm : behavior 0 = .success t) :
    geminiPhase s behavior key = ⟨t, "Gemini", cacheInsert s.cache key t, false, 1⟩ := by
  simp only [geminiPhase, hflag, hconf]
  rw [cachedGemini_miss_success behavior s.cache false key t hmiss hm]
  simp

theorem geminiPhase_hit (s : AppState) (behavior : Nat → AttemptOutcome) (key : CacheKey)
    (v : String) (hflag : s.gemini_over_limit = false) (hconf : s.geminiConfigured = true)
    (hhit : cacheLookup s.cache key = some v) :
    geminiPhase s behavior key = ⟨v, "Gemini", cacheTouch s.cache key, false, 0⟩ := by
  simp only [geminiPhase, hflag, hconf]
  have hc : cachedGemini behavior s.cache false key =
      (.ret v, cacheTouch s.cache key, false, 0) := by
    unfold cachedGemini
    rw [hhit]
  rw [hc]
  simp

theorem geminiPhase_gemini_model (s : AppState) (behavior : Nat → AttemptOutcome)
    (key : CacheKey) (hflag : s.gemini_over_limit = false) (hconf : s.geminiConfigured = true)
    (hmodel : (geminiPhase s behavior key).model = "Gemini") :
    (geminiPhase s behavior key).flag = false ∧
    cacheLookup (geminiPhase s behavior key).cache key =
      some (geminiPhase s behavior key).apology := by
  simp only [geminiPhase, hflag, hconf] at hmodel ⊢
  rcases hc : cachedGemini behavior s.cache false key with ⟨r, c2, f, n⟩
  rw [hc] at hmodel
  cases r with
  | ret t =>
    have h2 := cachedGemini_ret behavior s.cache false key t c2 f n hc
    simpa using h2
  | raise m => simp at hmodel

theorem geminiPhase_calls_le (s : AppState) (behavior : Nat → AttemptOutcome)
    (key : CacheKey) : (geminiPhase s behavior key).calls ≤ MAX_RETRIES := by
  unfold geminiPhase
  split
  · rcases hc : cachedGemini behavior s.cache s.gemini_over_limit key with ⟨r, c2, f, n⟩
    have hle := cachedGemini_calls_le behavior s.cache s.gemini_over_limit key
    rw [hc] at hle
    cases r <;> simpa using hle
  · simp

theorem generateStep_guard (s : AppState) (beh : Behaviors)
    (situation tone entry_id ts : String) (hg : pyStrip situation = "") :
    generateStep s beh situation tone entry_id ts = ⟨s, false, "", "", 0, 0⟩ := by
  simp [generateStep, hg]

theorem generateStep_of_phase (s : AppState) (beh : Behaviors)
    (situation tone entry_id ts : String) (hg : ¬ pyStrip situation = "") :
    (generateStep s beh situation tone entry_id ts).state.gemini_over_limit =
      (geminiPhase s beh.gemini (pyLower (pyStrip situation), pyLower tone)).flag ∧
    (generateStep s beh situation tone entry_id ts).state.geminiConfigured =
      s.geminiConfigured ∧
    (generateStep s beh situation tone entry_id ts).state.cache =
      (geminiPhase s beh.gemini (pyLower (pyStrip situation), pyLower tone)).cache ∧
    (generateStep s beh situation tone entry_id ts).geminiCalls =
      (geminiPhase s beh.gemini (pyLower (pyStrip situation), pyLower tone)).calls := by
  simp only [generateStep, if_neg hg]
  split_ifs <;> simp

theorem generateStep_main (s : AppState) (beh : Behaviors)
    (situation tone entry_id ts : String) (hg : ¬ pyStrip situation = "") :
    (generateStep s beh situation tone entry_id ts).apology =
      (if (geminiPhase s beh.gemini (pyLower (pyStrip situation), pyLower tone)).apology = ""
        then generate_with_gpt2 beh.gpt2 (pyLower (pyStrip situation)) (pyLower tone)
        else (geminiPhase s beh.gemini (pyLower (pyStrip situation), pyLower tone)).apology) ∧
    (generateStep s beh situation tone entry_id ts).ok =
      (if (generateStep s beh situation tone entry_id ts).apology = "" then false else true) ∧
    (generateStep s beh situation tone entry_id ts).model_used =
      (if (geminiPhase s beh.gemini (pyLower (pyStrip situation), pyLower tone)).apology = ""
        then "GPT-2"
        else (geminiPhase s beh.gemini (pyLower (pyStrip situation), pyLower tone)).model) ∧
    (generateStep s beh situation tone entry_id ts).gpt2Calls =
      (if (geminiPhase s beh.gemini (pyLower (pyStrip situation), pyLower tone)).apology = ""
        then 1 else 0) ∧
    (generateStep s beh situation tone entry_id ts).state.history =
      (if (generateStep s beh situation tone entry_id ts).apology = "" then s.history
        else s.history ++ [⟨entry_id, ts, situation, tone,
          (generateStep s beh situation tone entry_id ts).apology,
          (generateStep s beh situation tone entry_id ts).model_used, none⟩]) := by
  simp only [generateStep, if_neg hg]
  split_ifs <;> simp_all

/-- C1 counterexample: both backends fail (Gemini raises a non-quota
APIError on every attempt, the GPT-2 pipeline raises), yet the handler
reports success, returns the fixed non-empty failure message as the
apology, and appends a HistoryEntry recording it. -/
theorem C1_counterexample :
    c1Out.ok = true ∧ c1Out.apology = FAILURE_TEXT ∧ FAILURE_TEXT ≠ "" ∧
    c1Out.state.history.map HistoryEntry.model = ["GPT-2"] ∧
    c1Out.state.history.map HistoryEntry.apology = [FAILURE_TEXT] := by decide

/-- C1, amended: a HistoryEntry is appended iff the final apology string
is non-empty; when the GPT-2 pipeline raises, the request nevertheless
ends as a success whose apology is the fixed non-empty failure message. -/
theorem C1_amended_theorem (s : AppState) (beh : Behaviors)
    (situation tone entry_id ts : String) (out : GenOutput)
    (hout : out = generateStep s beh situation tone entry_id ts) :
    (out.ok = true ↔ out.apology ≠ "") ∧
    (out.ok = true → out.state.history =
      s.history ++ [⟨entry_id, ts, situation, tone, out.apology, out.model_used, none⟩]) ∧
    (out.ok = false → out.state.history = s.history) ∧
    (∀ m, beh.gpt2 = .failure m → out.gpt2Calls = 1 →
      out.ok = true ∧ out.apology = FAILURE_TEXT) := by
  subst hout
  by_cases hg : pyStrip situation = ""
  · rw [generateStep_guard s beh situation tone entry_id ts hg]
    exact ⟨by simp, by simp, fun _ => rfl, fun m hm h1 => by simp at h1⟩
  · obtain ⟨ha, hok, hmu, hg2, hh⟩ := generateStep_main s beh situation tone entry_id ts hg
    refine ⟨?_, ?_, ?_, ?_⟩
    · rw [hok]
      by_cases hz : (generateStep s beh situation tone entry_id ts).apology = "" <;>
        simp [hz]
    · intro hoktrue
      have hz : ¬ (generateStep s beh situation tone entry_id ts).apology = "" := by
        intro hc
        rw [hok, if_pos hc] at hoktrue
        exact Bool.false_ne_true hoktrue
      rw [hh, if_neg hz]
    · intro hokfalse
      have hz : (generateStep s beh situation tone entry_id ts).apology = "" := by
        by_contra hc
        rw [hok, if_neg hc] at hokfalse
        exact Bool.true_eq_false.mp hokfalse
      rw [hh, if_pos hz]
    · intro m hm h1
      have hpz : (geminiPhase s beh.gemini
          (pyLower (pyStrip situation), pyLower tone)).apology = "" := by
        by_contra hc
        rw [hg2, if_neg hc] at h1
        exact absurd h1 (by decide)
      have hfa : (generateStep s beh situation tone entry_id ts).apology = FAILURE_TEXT := by
        rw [ha, if_pos hpz, hm]
        rfl
      refine ⟨?_, hfa⟩
      rw [hok, hfa, if_neg (by decide : ¬ (FAILURE_TEXT = ""))]

theorem C1_witness :
    (generateStep w1State w1Beh "Hi there" "formal" "e" "t").ok = true ∧
    (generateStep w1State w1Beh "Hi there" "formal" "e" "t").apology = FAILURE_TEXT :=
  (C1_amended_theorem w1State w1Beh "Hi there" "formal" "e" "t" _ rfl).2.2.2
    "oom" rfl (by decide)

/-- C2 counterexample: a request served successfully by the GPT-2
fallback leaves the result cache untouched — the Secondary result is
not stored and a later lookup under the normalized key misses. -/
theorem C2_counterexample :
    c2Out.ok = true ∧ c2Out.model_used = "GPT-2" ∧ c2Out.apology = "Deeply sorry." ∧
    c2Out.state.cache = [] ∧
    cacheLookup c2Out.state.cache ("i forgot", "friendly") = none := by decide

/-- C2, amended: the cache memoizes only Gemini results.  A request
routed past Gemini (quota flag set or Gemini unconfigured) leaves the
cache unchanged, so Secondary results are never stored; a live Gemini
success is stored under the normalized (situation, tone) key and is
retrievable from the new cache. -/
theorem C2_amended_theorem (s : AppState) (beh : Behaviors)
    (situation tone entry_id ts : String) (out : GenOutput)
    (hout : out = generateStep s beh situation tone entry_id ts) :
    ((s.gemini_over_limit = true ∨ s.geminiConfigured = false) →
      out.state.cache = s.cache) ∧
    (∀ t, s.gemini_over_limit = false → s.geminiConfigured = true →
      pyStrip situation ≠ "" →
      cacheLookup s.cache (pyLower (pyStrip situation), pyLower tone) = none →
      beh.gemini 0 = .success t →
      cacheLookup out.state.cache (pyLower (pyStrip situation), pyLower tone) = some t) := by
  subst hout
  constructor
  · intro hskip
    by_cases hg : pyStrip situation = ""
    · rw [generateStep_guard s beh situation tone entry_id ts hg]
    · obtain ⟨_, _, h3, _⟩ := generateStep_of_phase s beh situation tone entry_id ts hg
      rw [h3, geminiPhase_skip s beh.gemini _ hskip]
  · intro t hflag hconf hns hmiss hm
    obtain ⟨_, _, h3, _⟩ := generateStep_of_phase s beh situation tone entry_id ts hns
    rw [h3, geminiPhase_success0 s beh.gemini _ t hflag hconf hmiss hm]
    exact cacheLookup_cacheInsert s.cache _ t

theorem C2_witness :
    cacheLookup (generateStep w2State w2Beh "Hello there" "formal" "e" "t").state.cache
      (pyLower (pyStrip "Hello there"), pyLower "formal") = some "My sincere apologies." :=
  (C2_amended_theorem w2State w2Beh "Hello there" "formal" "e" "t" _ rfl).2
    "My sincere apologies." rfl rfl (by decide) rfl rfl

/-- C3 counterexample: the first submission of (i missed it, formal)
succeeds via Gemini and is cached; an unrelated quota failure then sets
the flag; resubmitting the identical request is routed straight to
GPT-2 — the cached result is not returned and a backend is invoked,
refuting the claim for a true quota flag. -/
theorem C3_counterexample :
    c3Out1.ok = true ∧ c3Out1.model_used = "Gemini" ∧ c3Out1.apology = "So sorry A." ∧
    cacheLookup c3Out1.state.cache ("i missed it", "formal") = some "So sorry A." ∧
    c3Out2.state.gemini_over_limit = true ∧
    c3Out3.gpt2Calls = 1 ∧ c3Out3.model_used = "GPT-2" ∧
    c3Out3.apology ≠ c3Out1.apology := by decide

/-- C3, amended: the second of two submissions with equal normalized
(situation, tone) returns the first result with no live backend
invocation provided the first submission succeeded via Gemini and, at
the second submission, the quota flag is still unset and Gemini is
configured (a hit is impossible otherwise, since the guarded call that
owns the cache is skipped). -/
theorem C3_amended_theorem (s : AppState) (b1 b2 : Behaviors)
    (sit1 tone1 eid1 ts1 sit2 tone2 eid2 ts2 : String)
    (hconf : s.geminiConfigured = true) (hflag : s.gemini_over_limit = false)
    (hsit : pyLower (pyStrip sit2) = pyLower (pyStrip sit1))
    (htone : pyLower tone2 = pyLower tone1)
    (hg2 : ¬ pyStrip sit2 = "")
    (out1 : GenOutput) (hout1 : out1 = generateStep s b1 sit1 tone1 eid1 ts1)
    (hfirst : out1.model_used = "Gemini") (hok1 : out1.ok = true) :
    (generateStep out1.state b2 sit2 tone2 eid2 ts2).ok = true ∧
    (generateStep out1.state b2 sit2 tone2 eid2 ts2).apology = out1.apology ∧
    (generateStep out1.state b2 sit2 tone2 eid2 ts2).model_used = "Gemini" ∧
    (generateStep out1.state b2 sit2 tone2 eid2 ts2).geminiCalls = 0 ∧
    (generateStep out1.state b2 sit2 tone2 eid2 ts2).gpt2Calls = 0 := by
  subst hout1
  have hg1 : ¬ pyStrip sit1 = "" := by
    intro hzz
    rw [generateStep_guard s b1 sit1 tone1 eid1 ts1 hzz] at hfirst
    simp at hfirst
  obtain ⟨ha1, hok1e, hmu1, _, _⟩ := generateStep_main s b1 sit1 tone1 eid1 ts1 hg1
  have hp1ne : ¬ (geminiPhase s b1.gemini
      (pyLower (pyStrip sit1), pyLower tone1)).apology = "" := by
    intro hc
    rw [hmu1, if_pos hc] at hfirst
    exact absurd hfirst (by decide)
  have hp1model : (geminiPhase s b1.gemini
      (pyLower (pyStrip sit1), pyLower tone1)).model = "Gemini" := by
    rw [hmu1, if_neg hp1ne] at hfirst
    exact hfirst
  have hinv := geminiPhase_gemini_model s b1.gemini
    (pyLower (pyStrip sit1), pyLower tone1) hflag hconf hp1model
  obtain ⟨hsflag, hsconf, hscache, _⟩ := generateStep_of_phase s b1 sit1 tone1 eid1 ts1 hg1
  have hout1flag : (generateStep s b1 sit1 tone1 eid1 ts1).state.gemini_over_limit = false := by
    rw [hsflag]; exact hinv.1
  have hout1conf : (generateStep s b1 sit1 tone1 eid1 ts1).state.geminiConfigured = true := by
    rw [hsconf]; exact hconf
  have hout1apology : (generateStep s b1 sit1 tone1 eid1 ts1).apology =
      (geminiPhase s b1.gemini (pyLower (pyStrip sit1), pyLower tone1)).apology := by
    rw [ha1, if_neg hp1ne]
  have hapne : ¬ (generateStep s b1 sit1 tone1 eid1 ts1).apology = "" := by
    intro hc
    rw [hok1e, if_pos hc] at hok1
    exact Bool.false_ne_true hok1
  have hhit : cacheLookup (generateStep s b1 sit1 tone1 eid1 ts1).state.cache
      (pyLower (pyStrip sit2), pyLower tone2) =
      some ((generateStep s b1 sit1 tone1 eid1 ts1).apology) := by
    rw [hsit, htone, hscache, hout1apology]
    exact hinv.2
  have hp2 := geminiPhase_hit (generateStep s b1 sit1 tone1 eid1 ts1).state b2.gemini
    (pyLower (pyStrip sit2), pyLower tone2) _ hout1flag hout1conf hhit
  obtain ⟨ha2, hok2, hmu2, hg22, _⟩ :=
    generateStep_main (generateStep s b1 sit1 tone1 eid1 ts1).state b2 sit2 tone2 eid2 ts2 hg2
  obtain ⟨_, _, _, hcalls2⟩ :=
    generateStep_of_phase (generateStep s b1 sit1 tone1 eid1 ts1).state b2 sit2 tone2 eid2 ts2 hg2
  have hne2 : ¬ (geminiPhase (generateStep s b1 sit1 tone1 eid1 ts1).state b2.gemini
      (pyLower (pyStrip sit2), pyLower tone2)).apology = "" := by
    rw [hp2]
    exact hapne
  have hstep2ap : (generateStep (generateStep s b1 sit1 tone1 eid1 ts1).state
      b2 sit2 tone2 eid2 ts2).apology = (generateStep s b1 sit1 tone1 eid1 ts1).apology := by
    rw [ha2, if_neg hne2, hp2]
  refine ⟨?_, hstep2ap, ?_, ?_, ?_⟩
  · rw [hok2, hstep2ap, if_neg hapne]
  · rw [hmu2, if_neg hne2, hp2]
  · rw [hcalls2, hp2]
  · rw [hg22, if_neg hne2]

theorem C3_witness :
    (generateStep (generateStep w3State w3B1 "I did it" "formal" "e1" "t1").state
      w3B2 "I did it" "formal" "e2" "t2").apology =
      (generateStep w3State w3B1 "I did it" "formal" "e1" "t1").apology ∧
    (generateStep (generateStep w3State w3B1 "I did it" "formal" "e1" "t1").state
      w3B2 "I did it" "formal" "e2" "t2").geminiCalls = 0 ∧
    (generateStep (generateStep w3State w3B1 "I did it" "formal" "e1" "t1").state
      w3B2 "I did it" "formal" "e2" "t2").gpt2Calls = 0 := by
  have h := C3_amended_theorem w3State w3B1 w3B2 "I did it" "formal" "e1" "t1"
    "I did it" "formal" "e2" "t2" rfl rfl rfl rfl (by decide) _ rfl (by decide) (by decide)
  exact ⟨h.2.1, h.2.2.2.1, h.2.2.2.2⟩

/-- C4: the quota flag is monotonic and demotes Primary permanently.
Once the flag is set, the Gemini backend receives no live invocation for
any later request, the request is served by the GPT-2 fallback, and the
flag stays set; the flag never goes from set back to unset; and the
first quota APIError from Gemini sets it. -/
theorem C4_theorem (s : AppState) (beh : Behaviors) (situation tone entry_id ts : String)
    (out : GenOutput) (hout : out = generateStep s beh situation tone entry_id ts) :
    (s.gemini_over_limit = true →
      out.state.gemini_over_limit = true ∧ out.geminiCalls = 0 ∧
        (pyStrip situation ≠ "" → out.gpt2Calls = 1)) ∧
    (out.state.gemini_over_limit = false → s.gemini_over_limit = false) ∧
    (s.gemini_over_limit = false → s.geminiConfigured = true → pyStrip situation ≠ "" →
      cacheLookup s.cache (pyLower (pyStrip situation), pyLower tone) = none →
      ∀ m, beh.gemini 0 = .apiError m → isQuotaError m = true →
        out.state.gemini_over_limit = true) := by
  subst hout
  refine ⟨fun hf => ?_, ?_, fun hflag hconf hns hmiss m hm hq => ?_⟩
  · by_cases hg : pyStrip situation = ""
    · rw [generateStep_guard s beh situation tone entry_id ts hg]
      exact ⟨hf, rfl, fun hns => absurd hg hns⟩
    · have hp := geminiPhase_skip s beh.gemini
        (pyLower (pyStrip situation), pyLower tone) (Or.inl hf)
      obtain ⟨h1, _, _, h4⟩ := generateStep_of_phase s beh situation tone entry_id ts hg
      obtain ⟨_, _, _, h5, _⟩ := generateStep_main s beh situation tone entry_id ts hg
      rw [h1, h4, h5, hp]
      exact ⟨hf, rfl, fun _ => rfl⟩
  · by_cases hsf : s.gemini_over_limit = true
    · intro hcontra
      by_cases hg : pyStrip situation = ""
      · rw [generateStep_guard s beh situation tone entry_id ts hg] at hcontra
        exact hcontra
      · have hp := geminiPhase_skip s beh.gemini
          (pyLower (pyStrip situation), pyLower tone) (Or.inl hsf)
        obtain ⟨h1, _, _, _⟩ := generateStep_of_phase s beh situation tone entry_id ts hg
        rw [h1, hp] at hcontra
        exact absurd hcontra (by simp [hsf])
    · intro _
      exact Bool.not_eq_true _ ▸ (Bool.eq_false_iff.mpr hsf)
  · have hp := geminiPhase_quota0 s beh.gemini
      (pyLower (pyStrip situation), pyLower tone) m hflag hconf hmiss hm hq
    obtain ⟨h1, _, _, _⟩ := generateStep_of_phase s beh situation tone entry_id ts hns
    rw [h1, hp]

theorem C4_witness :
    w4State.gemini_over_limit = true ∧
    (generateStep w4State w4Beh "I was late" "formal" "e1" "t1").state.gemini_over_limit = true ∧
    (generateStep w4State w4Beh "I was late" "formal" "e1" "t1").geminiCalls = 0 ∧
    (generateStep w4State w4Beh "I was late" "formal" "e1" "t1").gpt2Calls = 1 := by
  have h := (C4_theorem w4State w4Beh "I was late" "formal" "e1" "t1" _ rfl).1 rfl
  exact ⟨rfl, h.1, h.2.1, h.2.2 (by decide)⟩

/-- C5: Gemini is invoked at most MAX_RETRIES (2) times per call, the
budget is per request (every dispatch makes at most MAX_RETRIES live
Gemini invocations, whatever state the session is in), and a quota
APIError on the first attempt aborts at once after a single invocation,
setting the flag and re-raising. -/
theorem C5_theorem (behavior : Nat → AttemptOutcome) (flag : Bool) (s : AppState)
    (beh : Behaviors) (situation tone entry_id ts : String) :
    MAX_RETRIES = 2 ∧
    (generate_with_gemini behavior flag).2.2 ≤ MAX_RETRIES ∧
    (∀ m, behavior 0 = .apiError m → isQuotaError m = true →
      generate_with_gemini behavior flag = (.raise m, true, 1)) ∧
    (generateStep s beh situation tone entry_id ts).geminiCalls ≤ MAX_RETRIES := by
  refine ⟨rfl, generate_with_gemini_calls_le behavior flag,
    fun m hm hq => generate_with_gemini_quota0 behavior flag m hm hq, ?_⟩
  by_cases hg : pyStrip situation = ""
  · rw [generateStep_guard s beh situation tone entry_id ts hg]
    exact Nat.zero_le _
  · obtain ⟨_, _, _, h4⟩ := generateStep_of_phase s beh situation tone entry_id ts hg
    rw [h4]
    exact geminiPhase_calls_le s beh.gemini (pyLower (pyStrip situation), pyLower tone)

theorem C5_witness :
    ((fun _ => AttemptOutcome.apiError "429 quota exceeded") 0 =
      AttemptOutcome.apiError "429 quota exceeded") ∧
    isQuotaError "429 quota exceeded" = true ∧
    generate_with_gemini (fun _ => .apiError "429 quota exceeded") false =
      (.raise "429 quota exceeded", true, 1) :=
  ⟨rfl, by decide,
    (C5_theorem (fun _ => .apiError "429 quota exceeded") false
      ⟨false, true, [], []⟩ ⟨fun _ => .success "x", .success "y"⟩ "a" "formal" "e" "t").2.2.1
      "429 quota exceeded" rfl (by decide)⟩

/-- C6: recordFeedback is idempotent — applying the same feedback value
twice to the same entry id yields the same final history state as
applying it once. -/
theorem C6_theorem (history : List HistoryEntry) (entry_id : String) (b : Bool) :
    handle_feedback (handle_feedback history entry_id b) entry_id b =
      handle_feedback history entry_id b := by
  induction history with
  | nil => rfl
  | cons e rest ih =>
    by_cases hid : e.id = entry_id
    · simp [handle_feedback, hid]
    · simp [handle_feedback, hid, ih]

/-- C7: recordFeedback with an id that matches no entry is a silent
no-op — it raises no error and leaves the whole history unchanged. -/
theorem C7_theorem (history : List HistoryEntry) (entry_id : String) (b : Bool)
    (hnone : ∀ e ∈ history, e.id ≠ entry_id) :
    handle_feedback history entry_id b = history := by
  induction history with
  | nil => rfl
  | cons e rest ih =>
    have h1 : e.id ≠ entry_id := hnone e (List.mem_cons_self e rest)
    have h2 : ∀ x ∈ rest, x.id ≠ entry_id := fun x hx =>
      hnone x (List.mem_cons_of_mem e hx)
    simp [handle_feedback, h1, ih h2]

theorem C7_witness :
    (∀ e ∈ [sampleEntry], e.id ≠ "other") ∧
      handle_feedback [sampleEntry] "other" true = [sampleEntry] :=
  ⟨by decide, C7_theorem [sampleEntry] "other" true (by decide)⟩

/-- C8: feedback is the only mutable field — recordFeedback keeps every
other field of every entry, deletes nothing, and preserves the insertion
order and length of the history. -/
theorem C8_theorem (history : List HistoryEntry) (entry_id : String) (b : Bool) :
    List.Forall₂ framePreserved history (handle_feedback history entry_id b) ∧
      (handle_feedback history entry_id b).length = history.length := by
  have hall : List.Forall₂ framePreserved history (handle_feedback history entry_id b) := by
    induction history with
    | nil => exact List.Forall₂.nil
    | cons e rest ih =>
      by_cases hid : e.id = entry_id
      · simp only [handle_feedback, if_pos hid]
        exact List.Forall₂.cons ⟨rfl, rfl, rfl, rfl, rfl, rfl⟩
          (forall₂_framePreserved_refl rest)
      · simp only [handle_feedback, if_neg hid]
        exact List.Forall₂.cons (framePreserved_refl e) ih
  exact ⟨hall, hall.length_eq.symm⟩

/-- C9: the sampling temperature is a function of the tone alone; the
funny tone gets a strictly higher temperature than the other three tones,
which all share one common lower value. -/
theorem C9_theorem :
    temperature "formal" = temperature "friendly" ∧
      temperature "friendly" = temperature "sincere" ∧
      temperature "formal" < temperature "funny" ∧
      temperature "friendly" < temperature "funny" ∧
      temperature "sincere" < temperature "funny" := by
  refine ⟨rfl, rfl, ?_, ?_, ?_⟩
  all_goals unfold temperature
  all_goals rw [if_neg (by decide), if_pos rfl]
  all_goals norm_num

/-- C10: when Gemini completes without error but returns empty text, the
handler falls through to GPT-2 and, if GPT-2 produces non-empty text,
the appended HistoryEntry records GPT-2 as the producer, not Gemini. -/
theorem C10_theorem (s : AppState) (beh : Behaviors) (situation tone entry_id ts : String)
    (hflag : s.gemini_over_limit = false) (hconf : s.geminiConfigured = true)
    (hg : ¬ pyStrip situation = "")
    (hmiss : cacheLookup s.cache (pyLower (pyStrip situation), pyLower tone) = none)
    (hempty : beh.gemini 0 = .success "")
    (hgpt2 : ¬ generate_with_gpt2 beh.gpt2 (pyLower (pyStrip situation)) (pyLower tone) = "") :
    (generateStep s beh situation tone entry_id ts).geminiCalls = 1 ∧
    (generateStep s beh situation tone entry_id ts).gpt2Calls = 1 ∧
    (generateStep s beh situation tone entry_id ts).ok = true ∧
    (generateStep s beh situation tone entry_id ts).model_used = "GPT-2" ∧
    (generateStep s beh situation tone entry_id ts).state.history =
      s.history ++ [⟨entry_id, ts, situation, tone,
        generate_with_gpt2 beh.gpt2 (pyLower (pyStrip situation)) (pyLower tone),
        "GPT-2", none⟩] := by
  have hp := geminiPhase_success0 s beh.gemini
    (pyLower (pyStrip situation), pyLower tone) "" hflag hconf hmiss hempty
  obtain ⟨ha, hok, hmu, hg2, hh⟩ := generateStep_main s beh situation tone entry_id ts hg
  obtain ⟨_, _, _, hcalls⟩ := generateStep_of_phase s beh situation tone entry_id ts hg
  have hpz : (geminiPhase s beh.gemini
      (pyLower (pyStrip situation), pyLower tone)).apology = "" := by
    rw [hp]
  have hap : (generateStep s beh situation tone entry_id ts).apology =
      generate_with_gpt2 beh.gpt2 (pyLower (pyStrip situation)) (pyLower tone) := by
    rw [ha, if_pos hpz]
  have hmuv : (generateStep s beh situation tone entry_id ts).model_used = "GPT-2" := by
    rw [hmu, if_pos hpz]
  refine ⟨?_, ?_, ?_, hmuv, ?_⟩
  · rw [hcalls, hp]
  · rw [hg2, if_pos hpz]
  · rw [hok, hap, if_neg hgpt2]
  · rw [hh, hap, hmuv, if_neg hgpt2]

theorem C10_witness :
    (generateStep w10State w10Beh "Spilled coffee" "formal" "e" "t").geminiCalls = 1 ∧
    (generateStep w10State w10Beh "Spilled coffee" "formal" "e" "t").gpt2Calls = 1 ∧
    (generateStep w10State w10Beh "Spilled coffee" "formal" "e" "t").model_used = "GPT-2" := by
  have h := C10_theorem w10State w10Beh "Spilled coffee" "formal" "e" "t"
    rfl rfl (by decide) rfl rfl (by decide)
  exact ⟨h.1, h.2.1, h.2.2.2.1⟩

end ApologyGenie
